import Mathlib

/-!
Verification of the GCP CIS logging/monitoring check engine
(`twigs/gcp_cis_tool/check2.py`).

The Python module is shallowly embedded: each check routine becomes a pure
Lean function over explicit accessor data.  Loosely-typed JSON documents are
modelled with `Option`-valued fields: `d.get(k)` returns the field directly,
while direct indexing `d[k]` is modelled in the `Option` "crash" monad
(`none` = a raised `KeyError` aborting the routine).  Python string
primitives (`strip`, `replace`, `split`, `startswith`, `in`, `%`-formatting)
are re-implemented over `List Char` by structural recursion so that every
definition evaluates inside the kernel.
-/

namespace Twigs

/-- Python whitespace set used by `str.strip()` (ASCII part). -/
def isPySpace (c : Char) : Bool :=
  c == ' ' || c == '\t' || c == '\n' || c == '\r' || c == '\x0b' || c == '\x0c'

/-- Python `str.strip()` on the character list. -/
def pyStripChars (l : List Char) : List Char :=
  ((l.dropWhile isPySpace).reverse.dropWhile isPySpace).reverse

/-- One step of Python `str.replace('\n', ' ')`. -/
def newlineToSpace (c : Char) : Char :=
  if c == '\n' then ' ' else c

/-- The metric-filter normalization of `check2.py` line 128:
`entry['filter'].strip().replace('\n',' ')`. -/
def normalizeFilter (s : String) : String :=
  ⟨(pyStripChars s.data).map newlineToSpace⟩

/-- Python `s.startswith(pat)` at character-list level. -/
def isPrefixChars : List Char → List Char → Bool
  | [], _ => true
  | _ :: _, [] => false
  | a :: as, b :: bs => a == b && isPrefixChars as bs

/-- Python `s.startswith(pat)`. -/
def pyStartsWith (s pat : String) : Bool :=
  isPrefixChars pat.data s.data

/-- Contiguous-substring search at character-list level. -/
def isSubChars (pat : List Char) : List Char → Bool
  | [] => isPrefixChars pat []
  | c :: cs => isPrefixChars pat (c :: cs) || isSubChars pat cs

/-- Python `pat in s` (substring containment). -/
def py_in (pat s : String) : Bool :=
  isSubChars pat.data s.data

/-- Python `str.split(sep)` for a single-character separator. -/
def splitChar (sep : Char) : List Char → List (List Char)
  | [] => [[]]
  | c :: cs =>
    let r := splitChar sep cs
    if c == sep then [] :: r
    else
      match r with
      | [] => [[c]]
      | h :: t => (c :: h) :: t

/-- Python `em.split(':')`. -/
def pySplitColon (s : String) : List String :=
  (splitChar ':' s.data).map (fun l => ⟨l⟩)

/-- Python `template % arg` for a template holding exactly one `%s`. -/
def fmtChars : List Char → List Char → List Char
  | [], _ => []
  | '%' :: 's' :: rest, arg => arg ++ rest
  | c :: rest, arg => c :: fmtChars rest arg

/-- Python `template % arg` (single `%s` placeholder). -/
def pyFormat (template arg : String) : String :=
  ⟨fmtChars template.data arg.data⟩

/-- Python `"%s" % x` when `x` may be `None` (prints as `"None"`). -/
def pyStr (o : Option String) : String :=
  match o with
  | some s => s
  | none => "None"

/-! ## Data model (§3 of the spec, shapes as consumed by `check2.py`) -/

/-- The `conditionThreshold` object of an alert-policy condition. -/
structure CondThreshold where
  filter : Option String
deriving DecidableEq

/-- A condition of an `AlertPolicy`. -/
structure AlertCondition where
  conditionThreshold : Option CondThreshold
deriving DecidableEq

/-- An `AlertPolicy`: `{enabled: bool, conditions: [...]}`. -/
structure AlertPolicy where
  enabled : Option Bool
  conditions : Option (List AlertCondition)
deriving DecidableEq

/-- The `metricDescriptor` object of a `LogMetric`. -/
structure MetricDescriptor where
  type : Option String
deriving DecidableEq

/-- A `LogMetric`: `{filter: string, metricDescriptor: {type: string}}`. -/
structure LogMetric where
  filter : Option String
  metricDescriptor : Option MetricDescriptor
deriving DecidableEq

/-- A `LogSink`: `{filter: string, destination: string}`. -/
structure LogSink where
  filter : Option String
  destination : Option String
deriving DecidableEq

/-- An `auditLogConfigs` entry: `{logType, exemptedMembers}`. -/
structure AuditLogConfig where
  logType : Option String
  exemptedMembers : Option (List String)
deriving DecidableEq

/-- An `auditConfigs` entry: `{service, auditLogConfigs}`. -/
structure AuditConfig where
  service : Option String
  auditLogConfigs : Option (List AuditLogConfig)
deriving DecidableEq

/-- Per-project IAM policy projection: `{auditConfigs: [...]}`. -/
structure IamPolicy where
  auditConfigs : Option (List AuditConfig)
deriving DecidableEq

/-- Finding record. Modelled from the spec: `gcp_cis_utils.create_issue` is not
under `src/`; §3 and §6 describe the Finding as
`{ruleId, title, details (newline-joined violation lines), severity, reference,
remediation}`. -/
structure Finding where
  ruleId : String
  title : String
  details : String
  severity : String
  reference : String
  remediation : String
deriving DecidableEq

/-- Modelled from the spec: `gcp_cis_utils.create_issue` (not under `src/`)
builds a Finding from the six field values passed by the check routines. -/
def create_issue (ruleId title details severity reference remediation : String) :
    Finding :=
  ⟨ruleId, title, details, severity, reference, remediation⟩

/-- Modelled from the spec: `gcp_cis_utils.append_issue` (not under `src/`)
appends a non-empty result to the output sequence — "The runner appends
non-empty results to an output sequence, preserving catalog order". -/
def append_issue (issues : List Finding) (i : Option Finding) : List Finding :=
  match i with
  | none => issues
  | some f => issues ++ [f]

/-! ## Rule 2.1 — audit-logging completeness (`check2_1`, lines 5–45)

`check2_1` reads every document field with `.get`, so it is total. -/

/-- Violation line of `check2.py` line 15. -/
def line_notConfigured (p : String) : String :=
  "Cloud Audit Logging is not configured for project [" ++ p ++ "]"

/-- Violation line of `check2.py` line 20. -/
def line_allServices (p : String) : String :=
  "Cloud Audit Logging is not configured for all services for project [" ++ p ++ "]"

/-- Violation line of `check2.py` line 24. -/
def line_properly (p : String) : String :=
  "Cloud Audit Logging is not configured properly for project [" ++ p ++ "]"

/-- Violation line of `check2.py` line 40 (note the double space of the source). -/
def line_dataRead (p : String) : String :=
  "Cloud audit logging configuration is not enabled for DATA_READ operation for  project [" ++ p ++ "]"

/-- Violation line of `check2.py` line 42 (note the double space of the source). -/
def line_dataWrite (p : String) : String :=
  "Cloud audit logging configuration is not enabled for DATA_WRITE operation for  project [" ++ p ++ "]"

/-- Violation line of `check2.py` line 38: the identity shown is
`em.split(':')[1]` and the log type is `alc.get('logType')` (printed as `None`
when absent). -/
def line_exempt (ident lt p : String) : String :=
  "Audit configuration has exempted member [" ++ ident ++ "] for log type [" ++ lt ++ "] for project [" ++ p ++ "]"

/-- Exemption lines produced by the inner loop of `check2_1` (lines 33–38). -/
def exemptionLines (p : String) (alc : AuditLogConfig) : List String :=
  match alc.exemptedMembers with
  | none => []
  | some ems =>
    ems.filterMap fun em =>
      if pyStartsWith em "user:" then
        some (line_exempt ((pySplitColon em).getD 1 "") (pyStr alc.logType) p)
      else none

/-- Lines contributed by one `auditConfigs` entry (`check2_1` lines 17–42,
one iteration of the `for ac in acs` loop). -/
def acLines (p : String) (ac : AuditConfig) : List String :=
  if ac.service == some "allServices" then
    match ac.auditLogConfigs with
    | none => [line_properly p]
    | some alcs =>
      alcs.flatMap (exemptionLines p)
        ++ (if alcs.any (fun alc => alc.logType == some "DATA_READ") then []
            else [line_dataRead p])
        ++ (if alcs.any (fun alc => alc.logType == some "DATA_WRITE") then []
            else [line_dataWrite p])
  else [line_allServices p]

/-- Lines contributed by one project (`check2_1` lines 12–42). -/
def check2_1_project (p : String) (doc : IamPolicy) : List String :=
  match doc.auditConfigs with
  | none => [line_notConfigured p]
  | some acs => acs.flatMap (acLines p)

/-- The `details` list accumulated by `check2_1` over all projects; the
IAM-policies-by-project mapping is an insertion-ordered association list. -/
def check2_1_details (iam : List (String × IamPolicy)) : List String :=
  iam.flatMap fun pr => check2_1_project pr.1 pr.2

/-- Function `check2_1` (lines 5–45). -/
def check2_1 (iam : List (String × IamPolicy)) : Option Finding :=
  let details := check2_1_details iam
  if details.length > 0 then
    some (create_issue "cis-gcp-bench-check-2.1"
      "2.1 [Level 1] Ensure that Cloud Audit Logging is configured properly across all services and all users from a project (Scored)"
      (String.intercalate "\n" details) "4" "" "")
  else none

/-! ## Rule 2.2 — catch-all sink coverage (`check2_2`, lines 47–79)

Direct indexing `entry['filter']` is modelled in the `Option` crash monad. -/

/-- Violation line of `check2.py` line 76. -/
def line_sinks (p : String) : String :=
  "Sinks are not configured for all log entries for project [" ++ p ++ "]"

/-- The organization/folder sink loop (lines 56–59, 62–66): scan the sinks of
one scope, returning as soon as a `"(empty filter)"` sink is found; `none`
models a `KeyError` on a scanned entry. -/
def findCatchAll : List LogSink → Option Bool
  | [] => some false
  | s :: ss =>
    match s.filter with
    | none => none
    | some f => if f == "(empty filter)" then some true else findCatchAll ss

/-- The outer organization/folder loop: first scope owning a catch-all sink
short-circuits the whole check. -/
def scopesCatchAll (ids : List String) (sinksOf : String → List LogSink) :
    Option Bool :=
  match ids with
  | [] => some false
  | i :: is =>
    match findCatchAll (sinksOf i) with
    | none => none
    | some true => some true
    | some false => scopesCatchAll is sinksOf

/-- The per-project sink loop (lines 69–74): no early exit — `sink_found` is a
running flag and every entry's `filter` key is indexed. -/
def scanCatchAll (acc : Bool) : List LogSink → Option Bool
  | [] => some acc
  | s :: ss =>
    match s.filter with
    | none => none
    | some f => scanCatchAll (acc || (f == "(empty filter)")) ss

/-- The project fall-through of `check2_2` (lines 67–76). -/
def projSinkDetails (projects : List String) (sinksOf : String → List LogSink) :
    Option (List String) :=
  match projects with
  | [] => some []
  | p :: ps =>
    match scanCatchAll false (sinksOf p) with
    | none => none
    | some found =>
      match projSinkDetails ps sinksOf with
      | none => none
      | some rest => some ((if found then [] else [line_sinks p]) ++ rest)

/-- The `details` value held by `check2_2` at its return point: `[]` at the
two short-circuit `return None` statements, the accumulated list otherwise. -/
def check2_2_details (orgs folders projects : List String)
    (orgSinks folderSinks projSinks : String → List LogSink) :
    Option (List String) :=
  match scopesCatchAll orgs orgSinks with
  | none => none
  | some true => some []
  | some false =>
    match scopesCatchAll folders folderSinks with
    | none => none
    | some true => some []
    | some false => projSinkDetails projects projSinks

/-- Function `check2_2` (lines 47–79); the outer `Option` is the crash monad, the inner
one is Finding-or-no-finding. -/
def check2_2 (orgs folders projects : List String)
    (orgSinks folderSinks projSinks : String → List LogSink) :
    Option (Option Finding) :=
  match scopesCatchAll orgs orgSinks with
  | none => none
  | some true => some none
  | some false =>
    match scopesCatchAll folders folderSinks with
    | none => none
    | some true => some none
    | some false =>
      match projSinkDetails projects projSinks with
      | none => none
      | some details =>
        if details.length > 0 then
          some (some (create_issue "cis-gcp-bench-check-2.2"
            "2.2 [Level 1] Ensure that sinks are configured for all log entries (Scored)"
            (String.intercalate "\n" details) "4" "" ""))
        else some none

/-! ## Rule 2.3 — log-bucket retention (`check2_3`, lines 81–119) -/

/-- Violation line of `check2.py` line 84. -/
def line_noRetention (b : String) : String :=
  "No retention policy is configured for log bucket [" ++ b ++ "]"

/-- Violation line of `check2.py` line 86. -/
def line_unlocked (b : String) : String :=
  "Retention policy is not locked for log bucket [" ++ b ++ "]"

/-- Function `_check_bucket_retention_policy` (lines 81–86): the probe output is
classified by two independent substring tests. -/
def check_bucket_retention_policy (probe : String → String) (logbucket : String) :
    List String :=
  (if py_in "has no Retention Policy" (probe logbucket)
   then [line_noRetention logbucket] else [])
  ++ (if py_in "Retention Policy (UNLOCKED)" (probe logbucket)
      then [line_unlocked logbucket] else [])

/-- The bucket reference derived on lines 99/107/115:
`"gs://" + entry['destination'][23:]`. -/
def bucketRef (dest : String) : String :=
  "gs://" ++ dest.drop 23

/-- The per-scope sink loop of `check2_3` (e.g. lines 97–100): every entry's
`destination` is indexed; matching entries are probed in order with no
deduplication. -/
def scanSinksRetention (probe : String → String) : List LogSink →
    Option (List String)
  | [] => some []
  | s :: ss =>
    match s.destination with
    | none => none
    | some d =>
      match scanSinksRetention probe ss with
      | none => none
      | some rest =>
        some ((if pyStartsWith d "storage.googleapis.com/"
               then check_bucket_retention_policy probe (bucketRef d)
               else []) ++ rest)

/-- One scope family of `check2_3` (orgs, folders or projects). -/
def scanScopesRetention (probe : String → String)
    (sinksOf : String → List LogSink) : List String → Option (List String)
  | [] => some []
  | i :: is =>
    match scanSinksRetention probe (sinksOf i) with
    | none => none
    | some here =>
      match scanScopesRetention probe sinksOf is with
      | none => none
      | some rest => some (here ++ rest)

/-- The `details` list accumulated by `check2_3` (lines 92–116). -/
def check2_3_details (orgs folders projects : List String)
    (orgSinks folderSinks projSinks : String → List LogSink)
    (probe : String → String) : Option (List String) :=
  match scanScopesRetention probe orgSinks orgs with
  | none => none
  | some a =>
    match scanScopesRetention probe folderSinks folders with
    | none => none
    | some b =>
      match scanScopesRetention probe projSinks projects with
      | none => none
      | some c => some (a ++ b ++ c)

/-- Function `check2_3` (lines 88–119). -/
def check2_3 (orgs folders projects : List String)
    (orgSinks folderSinks projSinks : String → List LogSink)
    (probe : String → String) : Option (Option Finding) :=
  match check2_3_details orgs folders projects orgSinks folderSinks projSinks probe with
  | none => none
  | some details =>
    if details.length > 0 then
      some (some (create_issue "cis-gcp-bench-check-2.3"
        "2.3 [Level 1] Ensure that retention policies on log buckets are configured using Bucket Lock (Scored)"
        (String.intercalate "\n" details) "4" "" ""))
    else some none

/-! ## Metric-Alert Correlator (`_check_log_metric_filter_and_alerts`,
lines 121–138), shared by rules 2.4–2.11 -/

/-- One alert-policy condition (line 134):
`cond['conditionThreshold']['filter'] == "metric.type=\"" + mdt + "\"" and
entry_2['enabled']` — the `enabled` key is only indexed when the filter
comparison succeeds (Python `and` short-circuits). -/
def condMatch (mdt : String) (pol : AlertPolicy) (c : AlertCondition) :
    Option Bool :=
  match c.conditionThreshold with
  | none => none
  | some ct =>
    match ct.filter with
    | none => none
    | some cf =>
      if cf == "metric.type=\"" ++ mdt ++ "\"" then pol.enabled else some false

/-- Disjunctive fold in the crash monad: the loops of `check2.py` carry a
found-flag and never `break`, so every element is visited and a `KeyError`
anywhere aborts. -/
def foldOrM (f : α → Option Bool) : List α → Option Bool
  | [] => some false
  | x :: xs =>
    match f x with
    | none => none
    | some b =>
      match foldOrM f xs with
      | none => none
      | some r => some (b || r)

/-- The condition loop over one policy (lines 132–135). -/
def policyMatch (mdt : String) (pol : AlertPolicy) : Option Bool :=
  match pol.conditions with
  | none => none
  | some conds => foldOrM (condMatch mdt pol) conds

/-- One metric entry (lines 127–135): the `metricDescriptor`/`type` keys and
the alert policies are only touched when the normalized filter matches. -/
def metricEntryMatch (target : String) (pols : List AlertPolicy) (m : LogMetric) :
    Option Bool :=
  match m.filter with
  | none => none
  | some f =>
    if normalizeFilter f == target then
      match m.metricDescriptor with
      | none => none
      | some md =>
        match md.type with
        | none => none
        | some t => foldOrM (policyMatch t) pols
    else some false

/-- The per-project `poac_metric_found` flag (lines 126–135). -/
def projectCovered (target : String) (metrics : List LogMetric)
    (pols : List AlertPolicy) : Option Bool :=
  foldOrM (metricEntryMatch target pols) metrics

/-- Function `_check_log_metric_filter_and_alerts` (lines 121–138). -/
def check_log_metric_filter_and_alerts (target msg : String)
    (projects : List String) (metricsOf : String → List LogMetric)
    (policiesOf : String → List AlertPolicy) : Option (List String) :=
  match projects with
  | [] => some []
  | p :: ps =>
    match projectCovered target (metricsOf p) (policiesOf p) with
    | none => none
    | some found =>
      match check_log_metric_filter_and_alerts target msg ps metricsOf policiesOf with
      | none => none
      | some rest => some ((if found then [] else [pyFormat msg p]) ++ rest)

/-! ## Rules 2.4–2.11 (lines 140–232): eight instantiations of the correlator -/

/-- Constant `POAC_METRIC_FILTER` (line 144). -/
def POAC_METRIC_FILTER : String :=
  "(protoPayload.serviceName=\"cloudresourcemanager.googleapis.com\") AND (ProjectOwnership OR projectOwnerInvitee) OR (protoPayload.serviceData.policyDelta.bindingDeltas.action=\"REMOVE\" AND protoPayload.serviceData.policyDelta.bindingDeltas.role=\"roles/owner\") OR (protoPayload.serviceData.policyDelta.bindingDeltas.action=\"ADD\" AND protoPayload.serviceData.policyDelta.bindingDeltas.role=\"roles/owner\")"

/-- Constant `ACC_METRIC_FILTER` (line 155). -/
def ACC_METRIC_FILTER : String :=
  "protoPayload.methodName=\"SetIamPolicy\" AND protoPayload.serviceData.policyDelta.auditConfigDeltas:*"

/-- Constant `CRC_METRIC_FILTER` (line 167). -/
def CRC_METRIC_FILTER : String :=
  "resource.type=\"iam_role\" AND protoPayload.methodName = \"google.iam.admin.v1.CreateRole\" OR protoPayload.methodName=\"google.iam.admin.v1.DeleteRole\" OR protoPayload.methodName=\"google.iam.admin.v1.UpdateRole\""

/-- Constant `VPCNFRC_METRIC_FILTER` (line 179). -/
def VPCNFRC_METRIC_FILTER : String :=
  "resource.type=\"gce_firewall_rule\" AND jsonPayload.event_subtype=\"compute.firewalls.patch\" OR jsonPayload.event_subtype=\"compute.firewalls.insert\""

/-- Constant `VPCNRC_METRIC_FILTER` (line 191). -/
def VPCNRC_METRIC_FILTER : String :=
  "resource.type=\"gce_route\" AND jsonPayload.event_subtype=\"compute.routes.delete\" OR jsonPayload.event_subtype=\"compute.routes.insert\""

/-- Constant `VPCNC_METRIC_FILTER` (line 203). -/
def VPCNC_METRIC_FILTER : String :=
  "resource.type=gce_network AND jsonPayload.event_subtype=\"compute.networks.insert\" OR jsonPayload.event_subtype=\"compute.networks.patch\" OR jsonPayload.event_subtype=\"compute.networks.delete\" OR jsonPayload.event_subtype=\"compute.networks.removePeering\" OR jsonPayload.event_subtype=\"compute.networks.addPeering\""

/-- Constant `CSIAMPC_METRIC_FILTER` (line 215). -/
def CSIAMPC_METRIC_FILTER : String :=
  "resource.type=gcs_bucket AND protoPayload.methodName=\"storage.setIamPermissions\""

/-- Constant `SQLICC_METRIC_FILTER` (line 227). -/
def SQLICC_METRIC_FILTER : String :=
  "protoPayload.methodName=\"cloudsql.instances.update\""

/-- Shared Finding-wrapping tail of rules 2.4–2.11 (e.g. lines 147–149). -/
def wrapCorrelatorIssue (ruleId title : String) (d : Option (List String)) :
    Option (Option Finding) :=
  match d with
  | none => none
  | some details =>
    if details.length > 0 then
      some (some (create_issue ruleId title (String.intercalate "\n" details) "4" "" ""))
    else some none

/-- Function `check2_4` (lines 140–149). -/
def check2_4 (projects : List String) (metricsOf : String → List LogMetric)
    (policiesOf : String → List AlertPolicy) : Option (Option Finding) :=
  wrapCorrelatorIssue "cis-gcp-bench-check-2.4"
    "2.4 [Level 1] Ensure log metric filter and alerts exist for project ownership assignments/changes (Scored)"
    (check_log_metric_filter_and_alerts POAC_METRIC_FILTER
      "Log metric filter and alerts do not exist for Project Ownership assignments/changes for project [%s]"
      projects metricsOf policiesOf)

/-- Function `check2_5` (lines 151–160). -/
def check2_5 (projects : List String) (metricsOf : String → List LogMetric)
    (policiesOf : String → List AlertPolicy) : Option (Option Finding) :=
  wrapCorrelatorIssue "cis-gcp-bench-check-2.5"
    "2.5 [Level 1] Ensure that the log metric filter and alerts exist for Audit Configuration changes (Scored)"
    (check_log_metric_filter_and_alerts ACC_METRIC_FILTER
      "Log metric filter and alerts do not exist for Audit Configuration changes for project [%s]"
      projects metricsOf policiesOf)

/-- Function `check2_6` (lines 162–172). -/
def check2_6 (projects : List String) (metricsOf : String → List LogMetric)
    (policiesOf : String → List AlertPolicy) : Option (Option Finding) :=
  wrapCorrelatorIssue "cis-gcp-bench-check-2.6"
    "2.6 [Level 1] Ensure that the log metric filter and alerts exist for Custom Role changes (Scored)"
    (check_log_metric_filter_and_alerts CRC_METRIC_FILTER
      "Log metric filter and alerts do not exist for Custom Role changes for project [%s]"
      projects metricsOf policiesOf)

/-- Function `check2_7` (lines 174–184). -/
def check2_7 (projects : List String) (metricsOf : String → List LogMetric)
    (policiesOf : String → List AlertPolicy) : Option (Option Finding) :=
  wrapCorrelatorIssue "cis-gcp-bench-check-2.7"
    "2.7 [Level 1] Ensure that the log metric filter and alerts exist for VPC Network Firewall rule changes (Scored)"
    (check_log_metric_filter_and_alerts VPCNFRC_METRIC_FILTER
      "Log metric filter and alerts do not exist for VPC Network Firewall Rule changes for project [%s]"
      projects metricsOf policiesOf)

/-- Function `check2_8` (lines 186–196). -/
def check2_8 (projects : List String) (metricsOf : String → List LogMetric)
    (policiesOf : String → List AlertPolicy) : Option (Option Finding) :=
  wrapCorrelatorIssue "cis-gcp-bench-check-2.8"
    "2.8 [Level 1] Ensure that the log metric filter and alerts exist for VPC network route changes (Scored)"
    (check_log_metric_filter_and_alerts VPCNRC_METRIC_FILTER
      "Log metric filter and alerts do not exist for VPC Network Route changes for project [%s]"
      projects metricsOf policiesOf)

/-- Function `check2_9` (lines 198–208). -/
def check2_9 (projects : List String) (metricsOf : String → List LogMetric)
    (policiesOf : String → List AlertPolicy) : Option (Option Finding) :=
  wrapCorrelatorIssue "cis-gcp-bench-check-2.9"
    "2.9 [Level 1] Ensure that the log metric filter and alerts exist for VPC network changes (Scored)"
    (check_log_metric_filter_and_alerts VPCNC_METRIC_FILTER
      "Log metric filter and alerts do not exist for VPC Network changes for project [%s]"
      projects metricsOf policiesOf)

/-- Function `check2_10` (lines 210–220). -/
def check2_10 (projects : List String) (metricsOf : String → List LogMetric)
    (policiesOf : String → List AlertPolicy) : Option (Option Finding) :=
  wrapCorrelatorIssue "cis-gcp-bench-check-2.10"
    "2.10 [Level 1] Ensure that the log metric filter and alerts exist for Cloud Storage IAM permission changes (Scored)"
    (check_log_metric_filter_and_alerts CSIAMPC_METRIC_FILTER
      "Log metric filter and alerts do not exist for Cloud Storage IAM Permission changes for project [%s]"
      projects metricsOf policiesOf)

/-- Function `check2_11` (lines 222–232). -/
def check2_11 (projects : List String) (metricsOf : String → List LogMetric)
    (policiesOf : String → List AlertPolicy) : Option (Option Finding) :=
  wrapCorrelatorIssue "cis-gcp-bench-check-2.11"
    "2.11 [Level 1] Ensure that the log metric filter and alerts exist for SQL instance configuration changes (Scored)"
    (check_log_metric_filter_and_alerts SQLICC_METRIC_FILTER
      "Log metric filter and alerts do not exist for SQL Instance Configuration changes for project [%s]"
      projects metricsOf policiesOf)

/-! ## Rule runner (`run_checks`, lines 234–247) -/

/-- All accessor data a full run consumes (§6 interface, supplied by
`gcp_cis_utils`). -/
structure Accessor where
  orgs : List String
  folders : List String
  projects : List String
  iamPolicies : List (String × IamPolicy)
  orgSinks : String → List LogSink
  folderSinks : String → List LogSink
  projSinks : String → List LogSink
  metricsOf : String → List LogMetric
  policiesOf : String → List AlertPolicy
  probe : String → String

/-- Function `run_checks` (lines 234–247): the eleven rules run strictly in catalog
order; an uncaught exception in any rule aborts the remainder (`none`). -/
def run_checks (a : Accessor) : Option (List Finding) :=
  let i1 := append_issue [] (check2_1 a.iamPolicies)
  match check2_2 a.orgs a.folders a.projects a.orgSinks a.folderSinks a.projSinks with
  | none => none
  | some r2 =>
    let i2 := append_issue i1 r2
    match check2_3 a.orgs a.folders a.projects a.orgSinks a.folderSinks a.projSinks a.probe with
    | none => none
    | some r3 =>
      let i3 := append_issue i2 r3
      match check2_4 a.projects a.metricsOf a.policiesOf with
      | none => none
      | some r4 =>
        let i4 := append_issue i3 r4
        match check2_5 a.projects a.metricsOf a.policiesOf with
        | none => none
        | some r5 =>
          let i5 := append_issue i4 r5
          match check2_6 a.projects a.metricsOf a.policiesOf with
          | none => none
          | some r6 =>
            let i6 := append_issue i5 r6
            match check2_7 a.projects a.metricsOf a.policiesOf with
            | none => none
            | some r7 =>
              let i7 := append_issue i6 r7
              match check2_8 a.projects a.metricsOf a.policiesOf with
              | none => none
              | some r8 =>
                let i8 := append_issue i7 r8
                match check2_9 a.projects a.metricsOf a.policiesOf with
                | none => none
                | some r9 =>
                  let i9 := append_issue i8 r9
                  match check2_10 a.projects a.metricsOf a.policiesOf with
                  | none => none
                  | some r10 =>
                    let i10 := append_issue i9 r10
                    match check2_11 a.projects a.metricsOf a.policiesOf with
                    | none => none
                    | some r11 => some (append_issue i10 r11)

/-- The catalog's rule ids, in catalog order (§3). -/
def catalogIds : List String :=
  ["cis-gcp-bench-check-2.1", "cis-gcp-bench-check-2.2", "cis-gcp-bench-check-2.3",
   "cis-gcp-bench-check-2.4", "cis-gcp-bench-check-2.5", "cis-gcp-bench-check-2.6",
   "cis-gcp-bench-check-2.7", "cis-gcp-bench-check-2.8", "cis-gcp-bench-check-2.9",
   "cis-gcp-bench-check-2.10", "cis-gcp-bench-check-2.11"]

/-! ## Declarative coverage predicates (stated from §4.2 of the spec, for the
refinement claims about the correlator) -/

/-- Spec side: one condition references the metric type, i.e. its
`conditionThreshold` filter is exactly `metric.type="<type>"`. -/
def condHitB (mdt : String) (c : AlertCondition) : Bool :=
  match c.conditionThreshold with
  | some ct => ct.filter == some ("metric.type=\"" ++ mdt ++ "\"")
  | none => false

/-- Spec side: an enabled policy owns a condition referencing the metric
type. -/
def polCoveredB (mdt : String) (pol : AlertPolicy) : Bool :=
  (pol.enabled == some true) &&
    (match pol.conditions with
     | some conds => conds.any (condHitB mdt)
     | none => false)

/-- Spec side: some fetched alert policy covers the metric type. -/
def alertCoveredB (mdt : String) (pols : List AlertPolicy) : Bool :=
  pols.any (polCoveredB mdt)

/-- Spec side: a metric whose normalized filter equals the target filter and
whose type is covered by an enabled alert policy. -/
def metricCoveredB (target : String) (pols : List AlertPolicy) (m : LogMetric) :
    Bool :=
  match m.filter with
  | none => false
  | some f =>
    (normalizeFilter f == target) &&
      (match m.metricDescriptor with
       | some md =>
         match md.type with
         | some t => alertCoveredB t pols
         | none => false
       | none => false)

/-- Spec side: the project is covered — satisfied by at least one pair across
the whole metric × policy cross-product. -/
def coveredB (target : String) (metrics : List LogMetric)
    (pols : List AlertPolicy) : Bool :=
  metrics.any (metricCoveredB target pols)

/-! ## Well-formedness (the §3 document shapes, for the totality claims) -/

/-- A condition document holding the keys rules 2.4–2.11 index. -/
def WFCondB (c : AlertCondition) : Bool :=
  match c.conditionThreshold with
  | some ct => ct.filter.isSome
  | none => false

/-- An alert-policy document of the §3 shape. -/
def WFPolicyB (pol : AlertPolicy) : Bool :=
  pol.enabled.isSome &&
    (match pol.conditions with
     | some conds => conds.all WFCondB
     | none => false)

/-- A log-metric document of the §3 shape. -/
def WFMetricB (m : LogMetric) : Bool :=
  m.filter.isSome &&
    (match m.metricDescriptor with
     | some md => md.type.isSome
     | none => false)

/-- A log-sink document of the §3 shape. -/
def WFSinkB (s : LogSink) : Bool :=
  s.filter.isSome && s.destination.isSome

/-! ## Characterization lemmas -/

theorem foldOrM_eq_some (f : α → Option Bool) (g : α → Bool) :
    ∀ l : List α, (∀ x ∈ l, f x = some (g x)) →
    foldOrM f l = some (l.any g)
  | [], _ => rfl
  | x :: xs, h => by
    have hx := h x (by simp)
    have ih := foldOrM_eq_some f g xs (fun y hy => h y (by simp [hy]))
    simp [foldOrM, hx, ih]

theorem any_and_const (g : α → Bool) (b : Bool) :
    ∀ l : List α, l.any (fun x => g x && b) = (l.any g && b)
  | [] => by simp
  | x :: xs => by
    simp [List.any_cons, any_and_const g b xs]
    cases b <;> cases g x <;> simp

theorem condMatch_eq (mdt : String) (pol : AlertPolicy) (c : AlertCondition)
    (hp : pol.enabled.isSome = true) (hc : WFCondB c = true) :
    condMatch mdt pol c = some (condHitB mdt c && pol.enabled.getD false) := by
  cases hct : c.conditionThreshold with
  | none => unfold WFCondB at hc; rw [hct] at hc; simp at hc
  | some ct =>
    cases hcf : ct.filter with
    | none => unfold WFCondB at hc; rw [hct] at hc; simp [hcf] at hc
    | some cf =>
      cases he : pol.enabled with
      | none => rw [he] at hp; simp at hp
      | some b =>
        unfold condMatch condHitB
        by_cases hq : cf = "metric.type=\"" ++ mdt ++ "\"" <;>
          simp [hct, hcf, he, hq]

theorem policyMatch_eq (mdt : String) (pol : AlertPolicy)
    (h : WFPolicyB pol = true) :
    policyMatch mdt pol = some (polCoveredB mdt pol) := by
  have h' := h
  unfold WFPolicyB at h'
  rw [Bool.and_eq_true] at h'
  obtain ⟨hp, hconds⟩ := h'
  cases hcs : pol.conditions with
  | none => rw [hcs] at hconds; simp at hconds
  | some conds =>
    rw [hcs] at hconds
    simp only at hconds
    have hall := List.all_eq_true.mp hconds
    unfold policyMatch polCoveredB
    rw [hcs]
    simp only
    rw [foldOrM_eq_some (condMatch mdt pol)
      (fun c => condHitB mdt c && pol.enabled.getD false) conds
      (fun c hcmem => condMatch_eq mdt pol c hp (hall c hcmem))]
    rw [any_and_const]
    cases he : pol.enabled with
    | none => rw [he] at hp; simp at hp
    | some b => cases b <;> simp [he]

theorem metricEntryMatch_eq (target : String) (pols : List AlertPolicy)
    (m : LogMetric) (hm : WFMetricB m = true)
    (hp : pols.all WFPolicyB = true) :
    metricEntryMatch target pols m = some (metricCoveredB target pols m) := by
  have h' := hm
  unfold WFMetricB at h'
  rw [Bool.and_eq_true] at h'
  obtain ⟨hf, hmd⟩ := h'
  cases hfe : m.filter with
  | none => rw [hfe] at hf; simp at hf
  | some f =>
    by_cases hq : normalizeFilter f == target
    · cases hmde : m.metricDescriptor with
      | none => rw [hmde] at hmd; simp at hmd
      | some md =>
        rw [hmde] at hmd
        simp only at hmd
        cases hte : md.type with
        | none => rw [hte] at hmd; simp at hmd
        | some t =>
          have hfold := foldOrM_eq_some (policyMatch t) (polCoveredB t) pols
            (fun pol hpm => policyMatch_eq t pol (List.all_eq_true.mp hp pol hpm))
          unfold metricEntryMatch metricCoveredB
          simp [hfe, hq, hmde, hte, hfold, alertCoveredB]
    · unfold metricEntryMatch metricCoveredB
      simp [hfe, hq]

theorem projectCovered_eq (target : String) (metrics : List LogMetric)
    (pols : List AlertPolicy) (hm : metrics.all WFMetricB = true)
    (hp : pols.all WFPolicyB = true) :
    projectCovered target metrics pols = some (coveredB target metrics pols) :=
  foldOrM_eq_some (metricEntryMatch target pols) (metricCoveredB target pols)
    metrics
    (fun m hmm =>
      metricEntryMatch_eq target pols m (List.all_eq_true.mp hm m hmm) hp)

/-- Full characterization of the Metric-Alert Correlator on well-formed
documents: the violation lines are exactly one formatted line per uncovered
project, in project enumeration order. -/
theorem correlator_spec (target msg : String) :
    ∀ (projects : List String) (metricsOf : String → List LogMetric)
      (policiesOf : String → List AlertPolicy),
      (∀ p ∈ projects, (metricsOf p).all WFMetricB = true) →
      (∀ p ∈ projects, (policiesOf p).all WFPolicyB = true) →
      check_log_metric_filter_and_alerts target msg projects metricsOf policiesOf
        = some ((projects.filter
            (fun p => !(coveredB target (metricsOf p) (policiesOf p)))).map
              (fun p => pyFormat msg p))
  | [], _, _, _, _ => rfl
  | p :: ps, metricsOf, policiesOf, hm, hp => by
    have hcov := projectCovered_eq target (metricsOf p) (policiesOf p)
      (hm p (by simp)) (hp p (by simp))
    have ih := correlator_spec target msg ps metricsOf policiesOf
      (fun q hq => hm q (by simp [hq])) (fun q hq => hp q (by simp [hq]))
    unfold check_log_metric_filter_and_alerts
    rw [hcov, ih]
    cases hc : coveredB target (metricsOf p) (policiesOf p) <;>
      simp [List.filter_cons, hc]

/-- C1: in the Metric-Alert Correlator, on well-formed documents, a project
contributes no violation line iff some fetched metric has a normalized filter
equal to the target filter and some enabled fetched alert policy has a
condition whose `conditionThreshold` filter is exactly
`metric.type="<that metric's type>"` (the whole metric × policy cross-product
is considered); every uncovered project contributes exactly one line — the
message template instantiated with the project id — and the lines appear in
project enumeration order. -/
theorem correlator_uncovered_projects (target msg : String)
    (projects : List String) (metricsOf : String → List LogMetric)
    (policiesOf : String → List AlertPolicy)
    (hm : ∀ p ∈ projects, (metricsOf p).all WFMetricB = true)
    (hp : ∀ p ∈ projects, (policiesOf p).all WFPolicyB = true) :
    check_log_metric_filter_and_alerts target msg projects metricsOf policiesOf
      = some ((projects.filter
          (fun p => !(coveredB target (metricsOf p) (policiesOf p)))).map
            (fun p => pyFormat msg p)) :=
  correlator_spec target msg projects metricsOf policiesOf hm hp

theorem correlator_uncovered_projects_witness :
    check_log_metric_filter_and_alerts "f" "no alerts for [%s]" ["p1", "p2"]
        (fun p => if p = "p1" then [⟨some "f", some ⟨some "t"⟩⟩] else [])
        (fun _ => [⟨some true, some [⟨some ⟨some "metric.type=\"t\""⟩⟩]⟩])
      = some ["no alerts for [p2]"] :=
  (correlator_uncovered_projects "f" "no alerts for [%s]" ["p1", "p2"]
    (fun p => if p = "p1" then [⟨some "f", some ⟨some "t"⟩⟩] else [])
    (fun _ => [⟨some true, some [⟨some ⟨some "metric.type=\"t\""⟩⟩]⟩])
    (by decide) (by decide)).trans (by decide)

/-- C2: in the Metric-Alert Correlator, a single-metric project contributes no
violation line iff the metric's filter — after Python `strip()` and replacing
each embedded newline by a single space — is byte-for-byte (case-sensitively)
equal to the target filter, and an enabled alert covers the metric type; no
other normalization is applied, so any other drift of the filter string
yields the violation line. -/
theorem metric_filter_normalization_exact (target msg f t p : String)
    (pols : List AlertPolicy) (hp : pols.all WFPolicyB = true) :
    (check_log_metric_filter_and_alerts target msg [p]
        (fun _ => [⟨some f, some ⟨some t⟩⟩]) (fun _ => pols) = some [])
      ↔ (normalizeFilter f = target ∧ alertCoveredB t pols = true) := by
  have h := correlator_spec target msg [p]
    (fun _ => [⟨some f, some ⟨some t⟩⟩]) (fun _ => pols)
    (fun _ _ => rfl) (fun _ _ => hp)
  have hcov : coveredB target [⟨some f, some ⟨some t⟩⟩] pols
      = ((normalizeFilter f == target) && alertCoveredB t pols) := by
    simp [coveredB, metricCoveredB]
  rw [h]
  simp only [List.filter_cons, List.filter_nil, hcov]
  cases hb : ((normalizeFilter f == target) && alertCoveredB t pols) with
  | true =>
    rw [Bool.and_eq_true, beq_iff_eq] at hb
    obtain ⟨hb1, hb2⟩ := hb
    simp [hb1, hb2]
  | false =>
    constructor
    · intro hc
      simp at hc
    · rintro ⟨hc1, hc2⟩
      simp [hc1, hc2] at hb

theorem metric_filter_normalization_exact_witness :
    (check_log_metric_filter_and_alerts "a b" "m [%s]" ["p1"]
        (fun _ => [⟨some " a\nb ", some ⟨some "t"⟩⟩]) (fun _ => []) = some [])
      ↔ (normalizeFilter " a\nb " = "a b" ∧ alertCoveredB "t" [] = true) :=
  metric_filter_normalization_exact "a b" "m [%s]" " a\nb " "t" "p1" [] rfl

/-! ## Characterization of `check2_2` on well-formed sink documents -/

/-- A sink is catch-all when its filter is the literal `"(empty filter)"`. -/
def isCatchAllB (s : LogSink) : Bool :=
  s.filter == some "(empty filter)"

theorem findCatchAll_eq (l : List LogSink)
    (h : ∀ s ∈ l, s.filter.isSome = true) :
    findCatchAll l = some (l.any isCatchAllB) := by
  induction l with
  | nil => rfl
  | cons s ss ih =>
    cases hf : s.filter with
    | none => have hs := h s (by simp); rw [hf] at hs; simp at hs
    | some f =>
      by_cases hq : f = "(empty filter)" <;>
        simp [findCatchAll, isCatchAllB, hf, hq,
          ih (fun x hx => h x (by simp [hx]))]

theorem scopesCatchAll_eq (ids : List String) (sinksOf : String → List LogSink)
    (h : ∀ i ∈ ids, ∀ s ∈ sinksOf i, s.filter.isSome = true) :
    scopesCatchAll ids sinksOf
      = some (ids.any (fun i => (sinksOf i).any isCatchAllB)) := by
  induction ids with
  | nil => rfl
  | cons i is ih =>
    have hfi := findCatchAll_eq (sinksOf i) (h i (by simp))
    unfold scopesCatchAll
    rw [hfi]
    cases hb : (sinksOf i).any isCatchAllB with
    | true => simp [hb]
    | false => simp [hb, ih (fun j hj => h j (by simp [hj]))]

theorem scanCatchAll_eq (l : List LogSink)
    (h : ∀ s ∈ l, s.filter.isSome = true) :
    ∀ acc : Bool, scanCatchAll acc l = some (acc || l.any isCatchAllB) := by
  induction l with
  | nil => intro acc; simp [scanCatchAll]
  | cons s ss ih =>
    intro acc
    cases hf : s.filter with
    | none => have hs := h s (by simp); rw [hf] at hs; simp at hs
    | some f =>
      simp only [scanCatchAll, hf]
      rw [ih (fun x hx => h x (by simp [hx]))]
      simp [isCatchAllB, hf, Bool.or_assoc]

theorem projSinkDetails_eq (projects : List String)
    (sinksOf : String → List LogSink)
    (h : ∀ p ∈ projects, ∀ s ∈ sinksOf p, s.filter.isSome = true) :
    projSinkDetails projects sinksOf
      = some ((projects.filter
          (fun p => !((sinksOf p).any isCatchAllB))).map line_sinks) := by
  induction projects with
  | nil => rfl
  | cons p ps ih =>
    unfold projSinkDetails
    rw [scanCatchAll_eq (sinksOf p) (h p (by simp)) false]
    rw [ih (fun q hq => h q (by simp [hq]))]
    cases hb : (sinksOf p).any isCatchAllB <;>
      simp [List.filter_cons, hb]

/-- Existence form of the catch-all test, for readable claim statements. -/
theorem any_catchAll_iff (l : List LogSink) :
    l.any isCatchAllB = true ↔ ∃ s ∈ l, s.filter = some "(empty filter)" := by
  simp [List.any_eq_true, isCatchAllB]

/-- C3: hierarchical short-circuit of `check2_2`. (a) If any organization has
a sink with filter `"(empty filter)"`, the check returns no finding whatever
the folder- and project-level data are — no folder or project evaluation can
influence the result. (b) With no organization-level catch-all, the same
short-circuit applies at folder level. (c) Only when neither scope yields a
catch-all does each project lacking its own catch-all sink contribute exactly
one violation line. -/
theorem sink_check_hierarchical_shortcircuit
    (orgs : List String) (orgSinks : String → List LogSink)
    (ho : ∀ o ∈ orgs, ∀ s ∈ orgSinks o, s.filter.isSome = true) :
    ((∃ o ∈ orgs, ∃ s ∈ orgSinks o, s.filter = some "(empty filter)") →
      ∀ folders projects folderSinks projSinks,
        check2_2 orgs folders projects orgSinks folderSinks projSinks
          = some none)
    ∧ (∀ folders folderSinks,
        (∀ fd ∈ folders, ∀ s ∈ folderSinks fd, s.filter.isSome = true) →
        (¬ ∃ o ∈ orgs, ∃ s ∈ orgSinks o, s.filter = some "(empty filter)") →
        (∃ fd ∈ folders, ∃ s ∈ folderSinks fd, s.filter = some "(empty filter)") →
        ∀ projects projSinks,
          check2_2 orgs folders projects orgSinks folderSinks projSinks
            = some none)
    ∧ (∀ folders projects folderSinks projSinks,
        (∀ fd ∈ folders, ∀ s ∈ folderSinks fd, s.filter.isSome = true) →
        (∀ p ∈ projects, ∀ s ∈ projSinks p, s.filter.isSome = true) →
        (¬ ∃ o ∈ orgs, ∃ s ∈ orgSinks o, s.filter = some "(empty filter)") →
        (¬ ∃ fd ∈ folders, ∃ s ∈ folderSinks fd,
            s.filter = some "(empty filter)") →
        check2_2 orgs folders projects orgSinks folderSinks projSinks
          = (if ((projects.filter
                (fun p => !((projSinks p).any isCatchAllB))).map line_sinks) = []
             then some none
             else some (some (create_issue "cis-gcp-bench-check-2.2"
               "2.2 [Level 1] Ensure that sinks are configured for all log entries (Scored)"
               (String.intercalate "\n"
                 ((projects.filter
                   (fun p => !((projSinks p).any isCatchAllB))).map line_sinks))
               "4" "" "")))) := by
  refine ⟨?_, ?_, ?_⟩
  · intro hex folders projects folderSinks projSinks
    have horg : orgs.any (fun i => (orgSinks i).any isCatchAllB) = true := by
      rw [List.any_eq_true]
      obtain ⟨o, homem, hs⟩ := hex
      exact ⟨o, homem, (any_catchAll_iff (orgSinks o)).mpr hs⟩
    unfold check2_2
    rw [scopesCatchAll_eq orgs orgSinks ho, horg]
  · intro folders folderSinks hf hno hex projects projSinks
    have horg : orgs.any (fun i => (orgSinks i).any isCatchAllB) = false := by
      rw [Bool.eq_false_iff]
      intro hcontra
      rw [List.any_eq_true] at hcontra
      obtain ⟨o, homem, hs⟩ := hcontra
      exact hno ⟨o, homem, (any_catchAll_iff (orgSinks o)).mp hs⟩
    have hfolder : folders.any (fun i => (folderSinks i).any isCatchAllB) = true := by
      rw [List.any_eq_true]
      obtain ⟨fd, hfmem, hs⟩ := hex
      exact ⟨fd, hfmem, (any_catchAll_iff (folderSinks fd)).mpr hs⟩
    unfold check2_2
    rw [scopesCatchAll_eq orgs orgSinks ho, horg,
      scopesCatchAll_eq folders folderSinks hf, hfolder]
  · intro folders projects folderSinks projSinks hf hp hno hnf
    have horg : orgs.any (fun i => (orgSinks i).any isCatchAllB) = false := by
      rw [Bool.eq_false_iff]
      intro hcontra
      rw [List.any_eq_true] at hcontra
      obtain ⟨o, homem, hs⟩ := hcontra
      exact hno ⟨o, homem, (any_catchAll_iff (orgSinks o)).mp hs⟩
    have hfolder : folders.any (fun i => (folderSinks i).any isCatchAllB) = false := by
      rw [Bool.eq_false_iff]
      intro hcontra
      rw [List.any_eq_true] at hcontra
      obtain ⟨fd, hfmem, hs⟩ := hcontra
      exact hnf ⟨fd, hfmem, (any_catchAll_iff (folderSinks fd)).mp hs⟩
    unfold check2_2
    rw [scopesCatchAll_eq orgs orgSinks ho, horg,
      scopesCatchAll_eq folders folderSinks hf, hfolder,
      projSinkDetails_eq projects projSinks hp]
    cases hd : (projects.filter (fun p => !((projSinks p).any isCatchAllB))).map line_sinks with
    | nil => simp [hd]
    | cons x xs => simp

theorem sink_check_hierarchical_shortcircuit_witness :
    check2_2 ["o1"] ["f1"] ["p4"]
        (fun _ => [⟨some "(empty filter)", some "dest"⟩])
        (fun _ => []) (fun _ => [])
      = some none :=
  (sink_check_hierarchical_shortcircuit ["o1"]
    (fun _ => [⟨some "(empty filter)", some "dest"⟩]) (by decide)).1
    (by decide) ["f1"] ["p4"] (fun _ => []) (fun _ => [])

/-! ## Distinctness of the rule-2.1 violation lines -/

theorem ne_of_length_ne {s t : String} (h : s.length ≠ t.length) : s ≠ t :=
  fun he => h (he ▸ rfl)

theorem head_append (s t : String) (c : Char) (h : s.data.head? = some c) :
    (s ++ t).data.head? = some c := by
  rw [String.data_append]
  cases hs : s.data with
  | nil => rw [hs] at h; simp at h
  | cons a as =>
    rw [hs] at h
    simp at h
    simp [h]

theorem line_exempt_head (i l p : String) :
    (line_exempt i l p).data.head? = some 'A' := by
  unfold line_exempt
  apply head_append
  apply head_append
  apply head_append
  apply head_append
  apply head_append
  apply head_append
  decide

theorem line_allServices_head (p : String) :
    (line_allServices p).data.head? = some 'C' := by
  unfold line_allServices
  apply head_append
  apply head_append
  decide

theorem exempt_ne_allServices (i l p : String) :
    line_exempt i l p ≠ line_allServices p := by
  intro h
  have h1 := line_exempt_head i l p
  rw [h, line_allServices_head p] at h1
  simp at h1

theorem properly_ne_allServices (p : String) :
    line_properly p ≠ line_allServices p := by
  apply ne_of_length_ne
  have h1 : ("Cloud Audit Logging is not configured properly for project [").length
      ≠ ("Cloud Audit Logging is not configured for all services for project [").length := by
    decide
  simp only [line_properly, line_allServices, String.length_append]
  omega

theorem dataRead_ne_allServices (p : String) :
    line_dataRead p ≠ line_allServices p := by
  apply ne_of_length_ne
  have h1 : ("Cloud audit logging configuration is not enabled for DATA_READ operation for  project [").length
      ≠ ("Cloud Audit Logging is not configured for all services for project [").length := by
    decide
  simp only [line_dataRead, line_allServices, String.length_append]
  omega

theorem dataWrite_ne_allServices (p : String) :
    line_dataWrite p ≠ line_allServices p := by
  apply ne_of_length_ne
  have h1 : ("Cloud audit logging configuration is not enabled for DATA_WRITE operation for  project [").length
      ≠ ("Cloud Audit Logging is not configured for all services for project [").length := by
    decide
  simp only [line_dataWrite, line_allServices, String.length_append]
  omega

/-- Members of `exemptionLines` all have the `line_exempt` shape. -/
theorem mem_exemptionLines (p : String) (alc : AuditLogConfig) (x : String)
    (hx : x ∈ exemptionLines p alc) : ∃ i l, x = line_exempt i l p := by
  unfold exemptionLines at hx
  cases hems : alc.exemptedMembers with
  | none => rw [hems] at hx; simp at hx
  | some ems =>
    rw [hems] at hx
    simp only at hx
    rw [List.mem_filterMap] at hx
    obtain ⟨em, _, hem⟩ := hx
    by_cases hu : pyStartsWith em "user:" = true
    · rw [if_pos hu] at hem
      exact ⟨_, _, (Option.some.injEq _ _ ▸ hem).symm⟩
    · rw [if_neg hu] at hem
      simp at hem

theorem count_allServices_acLines (p : String) (ac : AuditConfig) :
    (acLines p ac).count (line_allServices p)
      = (if ac.service == some "allServices" then 0 else 1) := by
  unfold acLines
  by_cases hs : ac.service == some "allServices"
  · rw [if_pos hs, if_pos hs]
    cases halcs : ac.auditLogConfigs with
    | none =>
      rw [List.count_eq_zero]
      simp [Ne.symm (properly_ne_allServices p)]
    | some alcs =>
      rw [List.count_eq_zero]
      intro hmem
      rw [List.mem_append, List.mem_append] at hmem
      rcases hmem with (hmem | hmem) | hmem
      · rw [List.mem_flatMap] at hmem
        obtain ⟨alc, _, hx⟩ := hmem
        obtain ⟨i, l, hil⟩ := mem_exemptionLines p alc _ hx
        exact exempt_ne_allServices i l p hil.symm
      · rcases hdr : alcs.any (fun alc => alc.logType == some "DATA_READ") with _ | _ <;>
          rw [hdr] at hmem <;> simp at hmem
        exact dataRead_ne_allServices p hmem.symm
      · rcases hdw : alcs.any (fun alc => alc.logType == some "DATA_WRITE") with _ | _ <;>
          rw [hdw] at hmem <;> simp at hmem
        exact dataWrite_ne_allServices p hmem.symm
  · rw [if_neg hs, if_neg hs]
    simp

theorem count_allServices_flatMap (p : String) :
    ∀ acs : List AuditConfig,
      (acs.flatMap (acLines p)).count (line_allServices p)
        = (acs.filter (fun ac => !(ac.service == some "allServices"))).length
  | [] => rfl
  | ac :: acs => by
    rw [List.flatMap_cons, List.count_append, count_allServices_acLines,
      count_allServices_flatMap p acs, List.filter_cons]
    by_cases hs : ac.service == some "allServices"
    · simp [hs]
    · simp [hs]
      omega

/-- C4 (amended): with `auditConfigs` present, `check2_1` emits the
"not configured for all services" line once per `auditConfigs` entry whose
`service` is absent or differs from `"allServices"` — the presence of an
`allServices` entry does not suppress the lines contributed by the other
entries, and several such entries yield several lines. -/
theorem audit_allservices_line_per_entry (p : String) (acs : List AuditConfig) :
    (check2_1_project p ⟨some acs⟩).count (line_allServices p)
      = (acs.filter (fun ac => !(ac.service == some "allServices"))).length :=
  count_allServices_flatMap p acs

/-- C4 (counterexample): a project whose `auditConfigs` contain an
`allServices` entry still receives the "not configured for all services"
line — twice, once per non-`allServices` entry — contradicting the claim
that the presence of an `allServices` entry suppresses the line and that it
is emitted at most once per project. -/
theorem audit_allservices_line_cex :
    (some "allServices" ∈ ([⟨some "compute.googleapis.com", none⟩,
        ⟨some "storage.googleapis.com", none⟩,
        ⟨some "allServices", some [⟨some "DATA_READ", none⟩,
          ⟨some "DATA_WRITE", none⟩]⟩] :
        List AuditConfig).map (fun ac => ac.service))
    ∧ check2_1_project "p1"
        ⟨some [⟨some "compute.googleapis.com", none⟩,
          ⟨some "storage.googleapis.com", none⟩,
          ⟨some "allServices", some [⟨some "DATA_READ", none⟩,
            ⟨some "DATA_WRITE", none⟩]⟩]⟩
        = [line_allServices "p1", line_allServices "p1"] := by
  constructor
  · decide
  · decide

/-- C5 (counterexample): for the exempted member `"user:a:b"` the emitted
line names `a` — the segment between the first and second colon, computed by
`em.split(':')[1]` — not the entire substring `a:b` after the `"user:"`
prefix that the claim specifies. -/
theorem exempted_member_cex :
    check2_1_project "p1"
        ⟨some [⟨some "allServices",
          some [⟨some "DATA_READ", some ["user:a:b"]⟩,
            ⟨some "DATA_WRITE", none⟩]⟩]⟩
        = [line_exempt "a" "DATA_READ" "p1"]
    ∧ line_exempt "a" "DATA_READ" "p1" ≠ line_exempt "a:b" "DATA_READ" "p1" := by
  constructor
  · decide
  · decide

/-- C5 (amended): for every exempted member starting with `"user:"`, exactly
one violation line is emitted, naming the first colon-delimited segment after
the prefix (`em.split(':')[1]`), the `logType` of the enclosing entry
(printed `"None"` when absent) and the project id; the lines are one per
matching member, in member order, and are appended independently of the
DATA_READ/DATA_WRITE completeness lines. -/
theorem exempted_member_lines (p : String) (lt : Option String)
    (ems : List String) (alcs : List AuditLogConfig) :
    exemptionLines p ⟨lt, some ems⟩
      = (ems.filter (fun em => pyStartsWith em "user:")).map
          (fun em => line_exempt ((pySplitColon em).getD 1 "") (pyStr lt) p)
    ∧ check2_1_project p ⟨some [⟨some "allServices", some alcs⟩]⟩
      = alcs.flatMap (exemptionLines p)
        ++ ((if alcs.any (fun alc => alc.logType == some "DATA_READ") then []
             else [line_dataRead p])
          ++ (if alcs.any (fun alc => alc.logType == some "DATA_WRITE") then []
              else [line_dataWrite p])) := by
  constructor
  · unfold exemptionLines
    simp only
    induction ems with
    | nil => rfl
    | cons em ems ih =>
      rw [List.filterMap_cons, List.filter_cons]
      by_cases h : pyStartsWith em "user:" = true
      · rw [if_pos h, if_pos h]
        exact congrArg (List.cons _) ih
      · rw [if_neg h, if_neg h]
        exact ih
  · show (acLines p ⟨some "allServices", some alcs⟩) ++ [] = _
    rw [List.append_nil]
    unfold acLines
    simp [List.append_assoc]

/-- C9: a project whose IAM policy document holds an `auditConfigs` key whose
value is the empty list gets no rule-2.1 violation line at all — the
"not configured" line is reserved for the key being absent — and a run
consisting of that project alone yields no finding. -/
theorem empty_auditconfigs_compliant (p : String) :
    check2_1_project p ⟨some []⟩ = [] ∧ check2_1 [(p, ⟨some []⟩)] = none :=
  ⟨rfl, rfl⟩

/-! ## Characterization of `check2_3` on well-formed sink documents -/

/-- Pure pipeline form of the per-scope retention scan: one probe per sink
occurrence whose destination carries the storage prefix, no deduplication. -/
def sinkRetentionLines (probe : String → String) (l : List LogSink) :
    List String :=
  (l.filterMap (fun s => s.destination)).flatMap
    (fun d => if pyStartsWith d "storage.googleapis.com/"
              then check_bucket_retention_policy probe (bucketRef d)
              else [])

theorem scanSinksRetention_eq (probe : String → String) (l : List LogSink)
    (h : ∀ s ∈ l, s.destination.isSome = true) :
    scanSinksRetention probe l = some (sinkRetentionLines probe l) := by
  induction l with
  | nil => rfl
  | cons s ss ih =>
    cases hd : s.destination with
    | none => have hs := h s (by simp); rw [hd] at hs; simp at hs
    | some d =>
      simp only [scanSinksRetention, hd]
      rw [ih (fun x hx => h x (by simp [hx]))]
      simp [sinkRetentionLines, List.filterMap_cons, hd]

theorem scanScopesRetention_eq (probe : String → String)
    (sinksOf : String → List LogSink) (ids : List String)
    (h : ∀ i ∈ ids, ∀ s ∈ sinksOf i, s.destination.isSome = true) :
    scanScopesRetention probe sinksOf ids
      = some (ids.flatMap (fun i => sinkRetentionLines probe (sinksOf i))) := by
  induction ids with
  | nil => rfl
  | cons i is ih =>
    simp only [scanScopesRetention]
    rw [scanSinksRetention_eq probe (sinksOf i) (h i (by simp)),
      ih (fun j hj => h j (by simp [hj]))]
    simp

/-- C6 (amended): on well-formed sink documents, the retention details of
`check2_3` are the concatenation, over every sink occurrence of the three
scope families in order and with no deduplication of bucket references, of
the probe classification of that occurrence's bucket; and whenever a probe
output contains both the "has no Retention Policy" and the
"Retention Policy (UNLOCKED)" substrings, the classification of that bucket
is exactly the two violation lines, so a bucket referenced by k sinks
receives 2k lines in the same run. -/
theorem bucket_retention_lines (orgs folders projects : List String)
    (orgSinks folderSinks projSinks : String → List LogSink)
    (probe : String → String)
    (h1 : ∀ o ∈ orgs, ∀ s ∈ orgSinks o, s.destination.isSome = true)
    (h2 : ∀ fd ∈ folders, ∀ s ∈ folderSinks fd, s.destination.isSome = true)
    (h3 : ∀ p ∈ projects, ∀ s ∈ projSinks p, s.destination.isSome = true) :
    check2_3_details orgs folders projects orgSinks folderSinks projSinks probe
      = some (orgs.flatMap (fun o => sinkRetentionLines probe (orgSinks o))
          ++ folders.flatMap (fun fd => sinkRetentionLines probe (folderSinks fd))
          ++ projects.flatMap (fun p => sinkRetentionLines probe (projSinks p)))
    ∧ ∀ b, py_in "has no Retention Policy" (probe b) = true →
        py_in "Retention Policy (UNLOCKED)" (probe b) = true →
        check_bucket_retention_policy probe b
          = [line_noRetention b, line_unlocked b] := by
  constructor
  · unfold check2_3_details
    rw [scanScopesRetention_eq probe orgSinks orgs h1,
      scanScopesRetention_eq probe folderSinks folders h2,
      scanScopesRetention_eq probe projSinks projects h3]
  · intro b hb1 hb2
    unfold check_bucket_retention_policy
    rw [if_pos hb1, if_pos hb2]
    rfl

theorem bucket_retention_lines_witness :
    check2_3_details ["o1"] [] [] (fun _ => [⟨some "f", some "storage.googleapis.com/b1"⟩])
        (fun _ => []) (fun _ => [])
        (fun _ => "x has no Retention Policy y Retention Policy (UNLOCKED) z")
      = some [line_noRetention "gs://b1", line_unlocked "gs://b1"] :=
  ((bucket_retention_lines ["o1"] [] []
    (fun _ => [⟨some "f", some "storage.googleapis.com/b1"⟩])
    (fun _ => []) (fun _ => [])
    (fun _ => "x has no Retention Policy y Retention Policy (UNLOCKED) z")
    (by decide) (by decide) (by decide)).1).trans (by decide)

/-- C6 (counterexample): two projects whose sinks reference the same bucket:
the probe output contains both classification substrings, and the single
distinct bucket reference `gs://b1` receives four violation lines in the one
run — not exactly two — because the code probes per sink occurrence without
deduplicating bucket references. -/
theorem bucket_retention_cex :
    py_in "has no Retention Policy"
        "has no Retention Policy and Retention Policy (UNLOCKED)" = true
    ∧ py_in "Retention Policy (UNLOCKED)"
        "has no Retention Policy and Retention Policy (UNLOCKED)" = true
    ∧ check2_3_details [] [] ["p1", "p2"] (fun _ => []) (fun _ => [])
        (fun _ => [⟨some "f", some "storage.googleapis.com/b1"⟩])
        (fun _ => "has no Retention Policy and Retention Policy (UNLOCKED)")
        = some [line_noRetention "gs://b1", line_unlocked "gs://b1",
                line_noRetention "gs://b1", line_unlocked "gs://b1"]
    ∧ ([line_noRetention "gs://b1", line_unlocked "gs://b1",
        line_noRetention "gs://b1", line_unlocked "gs://b1"] : List String).length
        ≠ 2 := by
  refine ⟨by decide, by decide, by decide, by decide⟩

/-! ## Finding-wrapping equations shared by rules 2.1–2.11 -/

/-- Canonical issue-or-nothing wrapper: a Finding exactly when the detail list
is non-empty, its `details` field the newline-join of the lines. -/
def detailsToIssue (ruleId title : String) (d : List String) : Option Finding :=
  if d = [] then none
  else some (create_issue ruleId title (String.intercalate "\n" d) "4" "" "")

theorem wrapCorrelatorIssue_eq (ruleId title : String) (o : Option (List String)) :
    wrapCorrelatorIssue ruleId title o = o.map (detailsToIssue ruleId title) := by
  cases o with
  | none => rfl
  | some d => cases d <;> simp [wrapCorrelatorIssue, detailsToIssue]

theorem check2_1_eq (iam : List (String × IamPolicy)) :
    check2_1 iam
      = detailsToIssue "cis-gcp-bench-check-2.1"
          "2.1 [Level 1] Ensure that Cloud Audit Logging is configured properly across all services and all users from a project (Scored)"
          (check2_1_details iam) := by
  cases hd : check2_1_details iam with
  | nil => simp [check2_1, detailsToIssue, hd]
  | cons x xs => simp [check2_1, detailsToIssue, hd]

theorem check2_2_eq (orgs folders projects : List String)
    (orgSinks folderSinks projSinks : String → List LogSink) :
    check2_2 orgs folders projects orgSinks folderSinks projSinks
      = (check2_2_details orgs folders projects orgSinks folderSinks projSinks).map
          (detailsToIssue "cis-gcp-bench-check-2.2"
            "2.2 [Level 1] Ensure that sinks are configured for all log entries (Scored)") := by
  unfold check2_2 check2_2_details
  cases scopesCatchAll orgs orgSinks with
  | none => rfl
  | some b =>
    cases b with
    | true => rfl
    | false =>
      cases scopesCatchAll folders folderSinks with
      | none => rfl
      | some b2 =>
        cases b2 with
        | true => rfl
        | false =>
          cases projSinkDetails projects projSinks with
          | none => rfl
          | some d => cases d <;> simp [detailsToIssue]

theorem check2_3_eq (orgs folders projects : List String)
    (orgSinks folderSinks projSinks : String → List LogSink)
    (probe : String → String) :
    check2_3 orgs folders projects orgSinks folderSinks projSinks probe
      = (check2_3_details orgs folders projects orgSinks folderSinks projSinks probe).map
          (detailsToIssue "cis-gcp-bench-check-2.3"
            "2.3 [Level 1] Ensure that retention policies on log buckets are configured using Bucket Lock (Scored)") := by
  unfold check2_3
  cases check2_3_details orgs folders projects orgSinks folderSinks projSinks probe with
  | none => rfl
  | some d => cases d <;> simp [detailsToIssue]

/-- C7: every rule routine returns a Finding iff its accumulated
violation-detail sequence is non-empty (`detailsToIssue` maps `[]` to no
finding), and a returned Finding's `details` field is exactly the
newline-join of the collected lines in collection order. The outer `Option`
of rules 2.2–2.11 is crash propagation: the equations hold whenever the rule
returns at all. -/
theorem finding_iff_details (iam : List (String × IamPolicy))
    (orgs folders projects : List String)
    (orgSinks folderSinks projSinks : String → List LogSink)
    (probe : String → String) (metricsOf : String → List LogMetric)
    (policiesOf : String → List AlertPolicy) :
    (check2_1 iam
      = detailsToIssue "cis-gcp-bench-check-2.1"
          "2.1 [Level 1] Ensure that Cloud Audit Logging is configured properly across all services and all users from a project (Scored)"
          (check2_1_details iam))
    ∧ (check2_2 orgs folders projects orgSinks folderSinks projSinks
      = (check2_2_details orgs folders projects orgSinks folderSinks projSinks).map
          (detailsToIssue "cis-gcp-bench-check-2.2"
            "2.2 [Level 1] Ensure that sinks are configured for all log entries (Scored)"))
    ∧ (check2_3 orgs folders projects orgSinks folderSinks projSinks probe
      = (check2_3_details orgs folders projects orgSinks folderSinks projSinks probe).map
          (detailsToIssue "cis-gcp-bench-check-2.3"
            "2.3 [Level 1] Ensure that retention policies on log buckets are configured using Bucket Lock (Scored)"))
    ∧ (check2_4 projects metricsOf policiesOf
      = (check_log_metric_filter_and_alerts POAC_METRIC_FILTER
          "Log metric filter and alerts do not exist for Project Ownership assignments/changes for project [%s]"
          projects metricsOf policiesOf).map
          (detailsToIssue "cis-gcp-bench-check-2.4"
            "2.4 [Level 1] Ensure log metric filter and alerts exist for project ownership assignments/changes (Scored)"))
    ∧ (check2_5 projects metricsOf policiesOf
      = (check_log_metric_filter_and_alerts ACC_METRIC_FILTER
          "Log metric filter and alerts do not exist for Audit Configuration changes for project [%s]"
          projects metricsOf policiesOf).map
          (detailsToIssue "cis-gcp-bench-check-2.5"
            "2.5 [Level 1] Ensure that the log metric filter and alerts exist for Audit Configuration changes (Scored)"))
    ∧ (check2_6 projects metricsOf policiesOf
      = (check_log_metric_filter_and_alerts CRC_METRIC_FILTER
          "Log metric filter and alerts do not exist for Custom Role changes for project [%s]"
          projects metricsOf policiesOf).map
          (detailsToIssue "cis-gcp-bench-check-2.6"
            "2.6 [Level 1] Ensure that the log metric filter and alerts exist for Custom Role changes (Scored)"))
    ∧ (check2_7 projects metricsOf policiesOf
      = (check_log_metric_filter_and_alerts VPCNFRC_METRIC_FILTER
          "Log metric filter and alerts do not exist for VPC Network Firewall Rule changes for project [%s]"
          projects metricsOf policiesOf).map
          (detailsToIssue "cis-gcp-bench-check-2.7"
            "2.7 [Level 1] Ensure that the log metric filter and alerts exist for VPC Network Firewall rule changes (Scored)"))
    ∧ (check2_8 projects metricsOf policiesOf
      = (check_log_metric_filter_and_alerts VPCNRC_METRIC_FILTER
          "Log metric filter and alerts do not exist for VPC Network Route changes for project [%s]"
          projects metricsOf policiesOf).map
          (detailsToIssue "cis-gcp-bench-check-2.8"
            "2.8 [Level 1] Ensure that the log metric filter and alerts exist for VPC network route changes (Scored)"))
    ∧ (check2_9 projects metricsOf policiesOf
      = (check_log_metric_filter_and_alerts VPCNC_METRIC_FILTER
          "Log metric filter and alerts do not exist for VPC Network changes for project [%s]"
          projects metricsOf policiesOf).map
          (detailsToIssue "cis-gcp-bench-check-2.9"
            "2.9 [Level 1] Ensure that the log metric filter and alerts exist for VPC network changes (Scored)"))
    ∧ (check2_10 projects metricsOf policiesOf
      = (check_log_metric_filter_and_alerts CSIAMPC_METRIC_FILTER
          "Log metric filter and alerts do not exist for Cloud Storage IAM Permission changes for project [%s]"
          projects metricsOf policiesOf).map
          (detailsToIssue "cis-gcp-bench-check-2.10"
            "2.10 [Level 1] Ensure that the log metric filter and alerts exist for Cloud Storage IAM permission changes (Scored)"))
    ∧ (check2_11 projects metricsOf policiesOf
      = (check_log_metric_filter_and_alerts SQLICC_METRIC_FILTER
          "Log metric filter and alerts do not exist for SQL Instance Configuration changes for project [%s]"
          projects metricsOf policiesOf).map
          (detailsToIssue "cis-gcp-bench-check-2.11"
            "2.11 [Level 1] Ensure that the log metric filter and alerts exist for SQL instance configuration changes (Scored)")) :=
  ⟨check2_1_eq iam,
   check2_2_eq orgs folders projects orgSinks folderSinks projSinks,
   check2_3_eq orgs folders projects orgSinks folderSinks projSinks probe,
   wrapCorrelatorIssue_eq _ _ _,
   wrapCorrelatorIssue_eq _ _ _,
   wrapCorrelatorIssue_eq _ _ _,
   wrapCorrelatorIssue_eq _ _ _,
   wrapCorrelatorIssue_eq _ _ _,
   wrapCorrelatorIssue_eq _ _ _,
   wrapCorrelatorIssue_eq _ _ _,
   wrapCorrelatorIssue_eq _ _ _⟩

/-! ## Catalog-order invariant of `run_checks` -/

theorem detailsToIssue_ruleId (ruleId title : String) (d : List String)
    (f : Finding) (h : detailsToIssue ruleId title d = some f) :
    f.ruleId = ruleId := by
  unfold detailsToIssue at h
  split at h
  · cases h
  · injection h with h2
    rw [← h2]
    rfl

theorem map_ruleId_of (ruleId title : String) (o : Option (List String))
    (r : Option Finding) (h : o.map (detailsToIssue ruleId title) = some r) :
    ∀ f, r = some f → f.ruleId = ruleId := by
  intro f hf
  cases o with
  | none => simp at h
  | some d =>
    simp only [Option.map] at h
    injection h with h2
    rw [← h2] at hf
    exact detailsToIssue_ruleId ruleId title d f hf

theorem wrap_ruleId_of (ruleId title : String) (o : Option (List String))
    (r : Option Finding) (h : wrapCorrelatorIssue ruleId title o = some r) :
    ∀ f, r = some f → f.ruleId = ruleId := by
  rw [wrapCorrelatorIssue_eq] at h
  exact map_ruleId_of ruleId title o r h

theorem check2_1_ruleId (iam : List (String × IamPolicy)) (f : Finding)
    (h : check2_1 iam = some f) : f.ruleId = "cis-gcp-bench-check-2.1" := by
  rw [check2_1_eq] at h
  exact detailsToIssue_ruleId _ _ _ f h

theorem append_issue_sublist {l : List Finding} {ids : List String}
    (hl : List.Sublist (l.map (fun f => f.ruleId)) ids) (o : Option Finding) (i : String)
    (ho : ∀ f, o = some f → f.ruleId = i) :
    List.Sublist ((append_issue l o).map (fun f => f.ruleId)) (ids ++ [i]) := by
  cases o with
  | none => exact hl.trans (List.sublist_append_left ids [i])
  | some f =>
    have hf := ho f rfl
    show List.Sublist (((l ++ [f]).map (fun f => f.ruleId))) (ids ++ [i])
    have hone : ([f].map (fun f => f.ruleId)) = [i] := by simp [hf]
    rw [List.map_append, hone]
    exact hl.append (List.Sublist.refl [i])

/-- C8: any successful full run yields findings whose rule ids form a
sublist of the catalog ids in catalog order — hence at most one finding per
rule, no reordering, and no finding with a rule id outside the catalog. -/
theorem run_checks_catalog_order (a : Accessor) (l : List Finding)
    (h : run_checks a = some l) :
    List.Sublist (l.map (fun f => f.ruleId)) catalogIds
    ∧ (l.map (fun f => f.ruleId)).Nodup
    ∧ ∀ f ∈ l, f.ruleId ∈ catalogIds := by
  simp only [run_checks] at h
  rcases h2 : check2_2 a.orgs a.folders a.projects a.orgSinks a.folderSinks a.projSinks
    with _ | r2
  · rw [h2] at h; simp at h
  rw [h2] at h
  rcases h3 : check2_3 a.orgs a.folders a.projects a.orgSinks a.folderSinks
    a.projSinks a.probe with _ | r3
  · rw [h3] at h; simp at h
  rw [h3] at h
  rcases h4 : check2_4 a.projects a.metricsOf a.policiesOf with _ | r4
  · rw [h4] at h; simp at h
  rw [h4] at h
  rcases h5 : check2_5 a.projects a.metricsOf a.policiesOf with _ | r5
  · rw [h5] at h; simp at h
  rw [h5] at h
  rcases h6 : check2_6 a.projects a.metricsOf a.policiesOf with _ | r6
  · rw [h6] at h; simp at h
  rw [h6] at h
  rcases h7 : check2_7 a.projects a.metricsOf a.policiesOf with _ | r7
  · rw [h7] at h; simp at h
  rw [h7] at h
  rcases h8 : check2_8 a.projects a.metricsOf a.policiesOf with _ | r8
  · rw [h8] at h; simp at h
  rw [h8] at h
  rcases h9 : check2_9 a.projects a.metricsOf a.policiesOf with _ | r9
  · rw [h9] at h; simp at h
  rw [h9] at h
  rcases h10 : check2_10 a.projects a.metricsOf a.policiesOf with _ | r10
  · rw [h10] at h; simp at h
  rw [h10] at h
  rcases h11 : check2_11 a.projects a.metricsOf a.policiesOf with _ | r11
  · rw [h11] at h; simp at h
  rw [h11] at h
  simp only at h
  injection h with hl
  subst hl
  have s1 : List.Sublist
      ((append_issue [] (check2_1 a.iamPolicies)).map (fun f => f.ruleId))
      ([] ++ ["cis-gcp-bench-check-2.1"]) :=
    append_issue_sublist (by simp) _ _ (fun f hf => check2_1_ruleId _ f hf)
  have s2 := append_issue_sublist s1 r2 "cis-gcp-bench-check-2.2"
    (by rw [check2_2_eq] at h2; exact map_ruleId_of _ _ _ _ h2)
  have s3 := append_issue_sublist s2 r3 "cis-gcp-bench-check-2.3"
    (by rw [check2_3_eq] at h3; exact map_ruleId_of _ _ _ _ h3)
  have s4 := append_issue_sublist s3 r4 "cis-gcp-bench-check-2.4"
    (by unfold check2_4 at h4; exact wrap_ruleId_of _ _ _ _ h4)
  have s5 := append_issue_sublist s4 r5 "cis-gcp-bench-check-2.5"
    (by unfold check2_5 at h5; exact wrap_ruleId_of _ _ _ _ h5)
  have s6 := append_issue_sublist s5 r6 "cis-gcp-bench-check-2.6"
    (by unfold check2_6 at h6; exact wrap_ruleId_of _ _ _ _ h6)
  have s7 := append_issue_sublist s6 r7 "cis-gcp-bench-check-2.7"
    (by unfold check2_7 at h7; exact wrap_ruleId_of _ _ _ _ h7)
  have s8 := append_issue_sublist s7 r8 "cis-gcp-bench-check-2.8"
    (by unfold check2_8 at h8; exact wrap_ruleId_of _ _ _ _ h8)
  have s9 := append_issue_sublist s8 r9 "cis-gcp-bench-check-2.9"
    (by unfold check2_9 at h9; exact wrap_ruleId_of _ _ _ _ h9)
  have s10 := append_issue_sublist s9 r10 "cis-gcp-bench-check-2.10"
    (by unfold check2_10 at h10; exact wrap_ruleId_of _ _ _ _ h10)
  have s11 := append_issue_sublist s10 r11 "cis-gcp-bench-check-2.11"
    (by unfold check2_11 at h11; exact wrap_ruleId_of _ _ _ _ h11)
  have hsub : List.Sublist ((append_issue (append_issue (append_issue
      (append_issue (append_issue (append_issue (append_issue (append_issue
      (append_issue (append_issue (append_issue [] (check2_1 a.iamPolicies))
      r2) r3) r4) r5) r6) r7) r8) r9) r10) r11).map (fun f => f.ruleId))
      catalogIds := by
    simpa [catalogIds] using s11
  have hnd : catalogIds.Nodup := by decide
  exact ⟨hsub, hnd.sublist hsub,
    fun f hf => hsub.subset (List.mem_map_of_mem _ hf)⟩

/-- A fully empty accessor, for concrete witnesses. -/
def emptyAccessor : Accessor :=
  ⟨[], [], [], [], fun _ => [], fun _ => [], fun _ => [], fun _ => [],
   fun _ => [], fun _ => ""⟩

theorem run_checks_catalog_order_witness :
    run_checks emptyAccessor = some []
    ∧ List.Sublist (([] : List Finding).map (fun f => f.ruleId)) catalogIds :=
  ⟨rfl, (run_checks_catalog_order emptyAccessor [] rfl).1⟩

/-! ## Totality under the §3 document shapes -/

theorem WFSinkB_filter {s : LogSink} (h : WFSinkB s = true) :
    s.filter.isSome = true := by
  unfold WFSinkB at h
  rw [Bool.and_eq_true] at h
  exact h.1

theorem WFSinkB_destination {s : LogSink} (h : WFSinkB s = true) :
    s.destination.isSome = true := by
  unfold WFSinkB at h
  rw [Bool.and_eq_true] at h
  exact h.2

/-- C10: rules 2.2–2.11 index document keys directly, with no defensive
default. On accessors whose documents all have the §3 shape every lookup
succeeds, so the embedded routines are total (they return `some _`, the
crash branch unreachable); and a document missing one of these keys makes
the routine fail (`none`, a raised `KeyError`) rather than count as a
compliance violation — shown by a concrete organization sink lacking its
`filter` key. -/
theorem shape_totality (orgs folders projects : List String)
    (orgSinks folderSinks projSinks : String → List LogSink)
    (probe : String → String) (metricsOf : String → List LogMetric)
    (policiesOf : String → List AlertPolicy)
    (h1 : ∀ o ∈ orgs, (orgSinks o).all WFSinkB = true)
    (h2 : ∀ fd ∈ folders, (folderSinks fd).all WFSinkB = true)
    (h3 : ∀ p ∈ projects, (projSinks p).all WFSinkB = true)
    (h4 : ∀ p ∈ projects, (metricsOf p).all WFMetricB = true)
    (h5 : ∀ p ∈ projects, (policiesOf p).all WFPolicyB = true) :
    ((check2_2 orgs folders projects orgSinks folderSinks projSinks).isSome = true
     ∧ (check2_3 orgs folders projects orgSinks folderSinks projSinks probe).isSome = true
     ∧ ∀ target msg,
         (check_log_metric_filter_and_alerts target msg projects metricsOf
           policiesOf).isSome = true)
    ∧ check2_2 ["o1"] [] [] (fun _ => [⟨none, some "d"⟩]) (fun _ => [])
        (fun _ => []) = none := by
  have hfo : ∀ o ∈ orgs, ∀ s ∈ orgSinks o, s.filter.isSome = true :=
    fun o ho s hs => WFSinkB_filter (List.all_eq_true.mp (h1 o ho) s hs)
  have hff : ∀ fd ∈ folders, ∀ s ∈ folderSinks fd, s.filter.isSome = true :=
    fun fd hf s hs => WFSinkB_filter (List.all_eq_true.mp (h2 fd hf) s hs)
  have hfp : ∀ p ∈ projects, ∀ s ∈ projSinks p, s.filter.isSome = true :=
    fun p hp s hs => WFSinkB_filter (List.all_eq_true.mp (h3 p hp) s hs)
  have hdo : ∀ o ∈ orgs, ∀ s ∈ orgSinks o, s.destination.isSome = true :=
    fun o ho s hs => WFSinkB_destination (List.all_eq_true.mp (h1 o ho) s hs)
  have hdf : ∀ fd ∈ folders, ∀ s ∈ folderSinks fd, s.destination.isSome = true :=
    fun fd hf s hs => WFSinkB_destination (List.all_eq_true.mp (h2 fd hf) s hs)
  have hdp : ∀ p ∈ projects, ∀ s ∈ projSinks p, s.destination.isSome = true :=
    fun p hp s hs => WFSinkB_destination (List.all_eq_true.mp (h3 p hp) s hs)
  refine ⟨⟨?_, ?_, ?_⟩, rfl⟩
  · have hd2 : (check2_2_details orgs folders projects orgSinks folderSinks
        projSinks).isSome = true := by
      unfold check2_2_details
      rw [scopesCatchAll_eq orgs orgSinks hfo]
      cases hb : orgs.any (fun i => (orgSinks i).any isCatchAllB) with
      | true => rfl
      | false =>
        rw [scopesCatchAll_eq folders folderSinks hff]
        cases hb2 : folders.any (fun i => (folderSinks i).any isCatchAllB) with
        | true => rfl
        | false =>
          rw [projSinkDetails_eq projects projSinks hfp]
          rfl
    rw [check2_2_eq]
    cases hx : check2_2_details orgs folders projects orgSinks folderSinks
        projSinks with
    | none => rw [hx] at hd2; simp at hd2
    | some d => rfl
  · have hd3 : (check2_3_details orgs folders projects orgSinks folderSinks
        projSinks probe).isSome = true := by
      unfold check2_3_details
      rw [scanScopesRetention_eq probe orgSinks orgs hdo,
        scanScopesRetention_eq probe folderSinks folders hdf,
        scanScopesRetention_eq probe projSinks projects hdp]
      rfl
    rw [check2_3_eq]
    cases hx : check2_3_details orgs folders projects orgSinks folderSinks
        projSinks probe with
    | none => rw [hx] at hd3; simp at hd3
    | some d => rfl
  · intro target msg
    rw [correlator_spec target msg projects metricsOf policiesOf h4 h5]
    rfl

theorem shape_totality_witness :
    ((check2_2 ["o2"] [] ["p1"] (fun _ => [⟨some "x", some "y"⟩]) (fun _ => [])
        (fun _ => [⟨some "x", some "y"⟩])).isSome = true
      ∧ (check_log_metric_filter_and_alerts "t" "m [%s]" ["p1"]
          (fun _ => [⟨some "g", some ⟨some "ty"⟩⟩])
          (fun _ => [⟨some false, some []⟩])).isSome = true)
    ∧ check2_2 ["o1"] [] [] (fun _ => [⟨none, some "d"⟩]) (fun _ => [])
        (fun _ => []) = none := by
  have h := shape_totality ["o2"] [] ["p1"] (fun _ => [⟨some "x", some "y"⟩])
    (fun _ => []) (fun _ => [⟨some "x", some "y"⟩]) (fun _ => "")
    (fun _ => [⟨some "g", some ⟨some "ty"⟩⟩])
    (fun _ => [⟨some false, some []⟩]) (by decide) (by decide) (by decide)
    (by decide) (by decide)
  exact ⟨⟨h.1.1, h.1.2.2 "t" "m [%s]"⟩, h.2⟩

end Twigs
